import Mathlib

set_option maxRecDepth 100000

/-
A shallow embedding of the agent backend in src/streamlit_app.py.

The program is a Streamlit chatbot over BigQuery: a schema catalog tool
(DataSchemaRoadmapTool), seven "table contract provider" tools (one pure
lookup class per Looker-Studio table, each with a table_info dict and a
string-dispatching _run method), a BigQuery executor (execute_bigquery),
and the agent wiring (setup_agent, run_agent).

All the in-scope code is pure string manipulation over hardcoded data,
plus calls into external services (BigQuery, the LLM).  External calls are
modelled as explicit function parameters returning PyResult (a value or a
raised exception's message).  The hardcoded dict literals are transcribed
verbatim below; Python string/dict rendering (str.lower, str.capitalize,
repr/str of str, dict and list values) is modelled character by character
for the ASCII data occurring in this program.

Note: the source defines the class CallsForLSTool twice; Python keeps the
second definition, so that is the one embedded here.
-/

/-- ASCII lowercasing of one character; Python str.lower restricted to the
ASCII data this program holds. -/
def lowerChar (c : Char) : Char :=
  if 'A' ≤ c ∧ c ≤ 'Z' then Char.ofNat (c.toNat + 32) else c

/-- ASCII uppercasing of one character. -/
def upperChar (c : Char) : Char :=
  if 'a' ≤ c ∧ c ≤ 'z' then Char.ofNat (c.toNat - 32) else c

/-- Python str.lower. -/
def pyLower (s : String) : String := String.mk (s.data.map lowerChar)

/-- Python str.capitalize: first character uppercased, the rest lowercased. -/
def pyCapitalize (s : String) : String :=
  match s.data with
  | [] => ""
  | c :: cs => String.mk (upperChar c :: cs.map lowerChar)

/-- Python sep.join for string lists. -/
def joinSep (sep : String) : List String → String
  | [] => ""
  | [x] => x
  | x :: y :: xs => x ++ sep ++ joinSep sep (y :: xs)

/-- Whether the second list is a prefix of the first: Python str.startswith
on the character lists of the two strings. -/
def startsWithL : List Char → List Char → Bool
  | _, [] => true
  | [], _ :: _ => false
  | c :: cs, p :: ps => c == p && startsWithL cs ps

/-- Whether pat occurs as a contiguous run inside the second list: the
substring containment test `pat in s` of Python. -/
def containsL (pat : List Char) : List Char → Bool
  | [] => startsWithL [] pat
  | c :: cs => startsWithL (c :: cs) pat || containsL pat cs

/-- Python `pat in s` on strings: substring containment. -/
def strContains (s pat : String) : Bool := containsL pat.data s.data

/-- Python s.split(" ", 1)[1]: everything after the first space.  Where the
program uses it a space is guaranteed to exist; on a spaceless input Python
would raise IndexError, a path no reachable input hits (modelled as []). -/
def afterFirstSpace : List Char → List Char
  | [] => []
  | c :: cs => if c = ' ' then cs else afterFirstSpace cs

/-- A value of one of the shapes stored in a table_info dict: a string, a
string-to-string dict (the fields mapping), or a list of strings (the
time_periods entries). -/
inductive PyVal where
  | str (s : String)
  | dict (entries : List (String × String))
  | list (items : List String)
deriving DecidableEq

/-- The quote character Python repr picks for a string: a double quote when
the text holds a single quote but no double quote, else a single quote. -/
def pyQuote (s : String) : Char :=
  if s.data.contains '\'' && !(s.data.contains '"') then '"' else '\''

/-- One character as Python repr renders it inside a string quoted by q.
The data of this program is printable ASCII plus newlines, so only the
backslash, newline, carriage return, tab and quote escapes can arise. -/
def pyEscChar (q c : Char) : String :=
  if c = '\\' then "\\\\"
  else if c = '\n' then "\\n"
  else if c = '\r' then "\\r"
  else if c = '\t' then "\\t"
  else if c = q then String.mk ['\\', q]
  else String.mk [c]

/-- Python repr of a string: quote choice plus character escapes.  Note that
a newline in the text is rendered as the two characters backslash-n. -/
def pyReprStr (s : String) : String :=
  String.mk [pyQuote s] ++ joinSep "" (s.data.map (pyEscChar (pyQuote s))) ++
    String.mk [pyQuote s]

/-- Python repr of a PyVal (str and repr agree on dicts and lists). -/
def pyReprVal : PyVal → String
  | .str s => pyReprStr s
  | .dict es =>
      "\x7b" ++ joinSep ", " (es.map fun e => pyReprStr e.1 ++ ": " ++ pyReprStr e.2) ++ "\x7d"
  | .list xs => "[" ++ joinSep ", " (xs.map pyReprStr) ++ "]"

/-- Python str of a table_info dict, as `str(self.table_info)` produces it:
the dict rendering whose keys and values go through repr. -/
def pyStrOfInfo (info : List (String × PyVal)) : String :=
  "\x7b" ++ joinSep ", " (info.map fun e => pyReprStr e.1 ++ ": " ++ pyReprVal e.2) ++ "\x7d"

/-- How a PyVal renders inside an f-string (str(x)): a string is its own
text; dicts and lists render as their repr. -/
def pyFStr : PyVal → String
  | .str s => s
  | .dict es => pyReprVal (.dict es)
  | .list xs => pyReprVal (.list xs)

/-- Python dict subscription info[k] for the keys the program accesses (all
present where accessed; a missing key would raise KeyError in Python, a
path no reachable input hits). -/
def pyGetItem (info : List (String × PyVal)) (k : String) : PyVal :=
  match info.find? (fun e => e.1 == k) with
  | some e => e.2
  | none => PyVal.str ""

/-- Python dict subscription for the string-to-string fields dicts, used
only after a membership test. -/
def pyDictGetS (d : List (String × String)) (k : String) : String :=
  match d.find? (fun e => e.1 == k) with
  | some e => e.2
  | none => ""

/-- One entry of the DataSchemaRoadmapTool schema map: the table's
description and field-name list. -/
structure SchemaEntry where
  description : String
  fields : List String
deriving DecidableEq

/-- The fields mapping of CallsForLSTool.table_info, keys in source order. -/
def callsFields : List (String × String) := [
  ("ghl_location_id", "Directly selected from the source table using: SELECT ghl_location_id"),
  ("ghl_location_name", "Directly selected from the source table using: SELECT ghl_location_name"),
  ("call_date", "Calculated using: PARSE_DATE('%Y-%m-%d', SUBSTR(call_started_at, 1, 10)) AS call_date"),
  ("Total_Calls", "Calculated using: SUM(CASE WHEN call_direction = \"inbound\" AND first_time = \"True\" THEN 1 ELSE 0 END) AS Total_Calls"),
  ("Answered_Calls", "Calculated using: SUM(CASE WHEN call_direction = \"inbound\" AND first_time = \"True\" AND call_status = \"completed\" THEN 1 ELSE 0 END) AS Answered_Calls"),
  ("Missed_Calls", "Calculated using: SUM(CASE WHEN call_direction = \"inbound\" AND first_time = \"True\" AND call_status = \"no-answer\" THEN 1 ELSE 0 END) AS Missed_Calls")]

/-- Entries of CallsForLSTool.table_info, in source order. -/
def callsInfo : List (String × PyVal) := [
  ("name", PyVal.str "calls_forLS"),
  ("description", PyVal.str "Provides information about call data."),
  ("fields", PyVal.dict callsFields),
  ("source_table", PyVal.str "the-pulse-405018.the_pulse.calls_bq"),
  ("clustering", PyVal.str "CLUSTER BY ghl_location_id"),
  ("partitioning", PyVal.str "none"),
  ("grouping", PyVal.str "GROUP BY ghl_location_id, ghl_location_name, call_started_at"),
  ("full_query", PyVal.str "\n            CREATE OR REPLACE TABLE `the-pulse-405018.the_pulse.calls_forLS`\n            CLUSTER BY ghl_location_id AS\n            SELECT\n                ghl_location_id,\n                ghl_location_name,\n                PARSE_DATE('%Y-%m-%d', SUBSTR(call_started_at, 1, 10)) AS call_date,\n                SUM(CASE WHEN call_direction = \"inbound\" AND first_time = \"True\" THEN 1 ELSE 0 END) AS Total_Calls,\n                SUM(CASE WHEN call_direction = \"inbound\" AND first_time = \"True\" AND call_status = \"completed\" THEN 1 ELSE 0 END) AS Answered_Calls,\n                SUM(CASE WHEN call_direction = \"inbound\" AND first_time = \"True\" AND call_status = \"no-answer\" THEN 1 ELSE 0 END) AS Missed_Calls\n            FROM `the-pulse-405018.the_pulse.calls_bq`\n            GROUP BY ghl_location_id, ghl_location_name, call_started_at\n            ")]

/-- The fields mapping of AdExpenseDataForLSTool.table_info, keys in source order. -/
def adExpenseFields : List (String × String) := [
  ("ghl_location_id", "Directly selected from the source table using: SELECT ghl_location_id"),
  ("ghl_location_name", "Directly selected from the source table using: SELECT ghl_location_name"),
  ("formatted_expense_monthyear", "Calculated using: DATE_TRUNC(expense_date, MONTH) AS formatted_expense_monthyear"),
  ("ad_expense", "Directly selected from the source table using: SELECT ad_expense")]

/-- Entries of AdExpenseDataForLSTool.table_info, in source order. -/
def adExpenseInfo : List (String × PyVal) := [
  ("name", PyVal.str "ad_expense_data_forLS"),
  ("description", PyVal.str "Provides information about ad expense data."),
  ("fields", PyVal.dict adExpenseFields),
  ("source_table", PyVal.str "the-pulse-405018.the_pulse.ad_expense_data"),
  ("partitioning", PyVal.str "PARTITION BY formatted_expense_monthyear"),
  ("clustering", PyVal.str "CLUSTER BY ghl_location_id"),
  ("full_query", PyVal.str "\n            CREATE OR REPLACE TABLE `the-pulse-405018.the_pulse.ad_expense_data_forLS`\n            CLUSTER BY ghl_location_id, ghl_location_name AS\n            SELECT\n                ghl_location_id,\n                ghl_location_name,\n                id,\n                ad_expense,\n                expense_monthyear,\n                expense_month,\n                expense_year,\n                converted_leads,\n                forecasted_revenue,\n                created_on,\n                updated_on,\n                PARSE_DATE('%Y-%m-%d',\n                    CONCAT(\n                        RIGHT(expense_monthyear, 4),\n                        '-',\n                        LPAD(\n                            FORMAT_DATE('%m', PARSE_DATE('%B', LEFT(expense_monthyear, LENGTH(expense_monthyear) - 5))),\n                            2,\n                            '0'\n                        ),\n                        '-01'\n                    )\n                ) AS formatted_expense_monthyear\n            FROM `the-pulse-405018.the_pulse.ad_expense_data_bq`\n            ")]

/-- The fields mapping of ReviewsForLSTool.table_info, keys in source order. -/
def reviewsFields : List (String × String) := [
  ("id", "Directly selected from the source table using: SELECT id"),
  ("ghl_location_name", "Directly selected from the source table using: SELECT ghl_location_name"),
  ("ghl_location_id", "Directly selected from the source table using: SELECT ghl_location_id"),
  ("comments", "Directly selected from the source table using: SELECT comments"),
  ("rating", "Directly selected from the source table using: SELECT rating"),
  ("reviewer", "Directly selected from the source table using: SELECT reviewer"),
  ("google_review_id", "Directly selected from the source table using: SELECT google_review_id"),
  ("review_added_on", "Directly selected from the source table using: SELECT review_added_on"),
  ("reviews_conversation", "Directly selected from the source table using: SELECT reviews_conversation"),
  ("is_posted_on_fb", "Directly selected from the source table using: SELECT is_posted_on_fb"),
  ("user_id", "Directly selected from the source table using: SELECT user_id"),
  ("review_id", "Directly selected from the source table using: SELECT review_id"),
  ("locationid", "Directly selected from the source table using: SELECT locationid"),
  ("review_path", "Directly selected from the source table using: SELECT review_path"),
  ("ai_generated_response", "Directly selected from the source table using: SELECT ai_generated_response"),
  ("createdAt", "Directly selected from the source table using: SELECT createdAt"),
  ("updatedAt", "Directly selected from the source table using: SELECT updatedAt"),
  ("posted_on_fb", "Directly selected from the source table using: SELECT posted_on_fb"),
  ("posted_on_insta", "Directly selected from the source table using: SELECT posted_on_insta"),
  ("posted_on_other", "Directly selected from the source table using: SELECT posted_on_other"),
  ("posted_on_twitter", "Directly selected from the source table using: SELECT posted_on_twitter"),
  ("email", "Directly selected from the source table using: SELECT email"),
  ("five_star_rating", "Calculated using: CASE WHEN rating = \"FIVE\" THEN 1 ELSE 0 END AS five_star_rating"),
  ("one_to_four_star_rating", "Calculated using: CASE WHEN (rating != \"FIVE\" AND rating != \"ZERO\") THEN 1 ELSE 0 END AS one_to_four_star_rating"),
  ("rating_2", "Calculated using: CASE WHEN rating = \"FIVE\" THEN 5 WHEN rating = \"FOUR\" THEN 4 WHEN rating = \"THREE\" THEN 3 WHEN rating = \"TWO\" THEN 2 WHEN rating = \"ONE\" THEN 1 WHEN rating = \"ZERO\" THEN 0 ELSE NULL END AS rating_2"),
  ("rating_3", "Calculated using: CASE WHEN rating = \"FIVE\" THEN \"5 star reviews\" ELSE \"others\" END AS rating_3")]

/-- Entries of ReviewsForLSTool.table_info, in source order. -/
def reviewsInfo : List (String × PyVal) := [
  ("name", PyVal.str "reviews_forLS"),
  ("description", PyVal.str "Provides information about the structure and calculations in the reviews_forLS table."),
  ("fields", PyVal.dict reviewsFields),
  ("source_table", PyVal.str "the-pulse-405018.the_pulse.reviews_bq"),
  ("full_query", PyVal.str "\n            CREATE OR REPLACE TABLE `the-pulse-405018.the_pulse.reviews_forLS` AS\n            SELECT\n                id,\n                ghl_location_name,\n                ghl_location_id,\n                comments,\n                rating,\n                reviewer,\n                google_review_id,\n                review_added_on,\n                reviews_conversation,\n                is_posted_on_fb,\n                user_id,\n                review_id,\n                locationid,\n                review_path,\n                ai_generated_response,\n                createdAt,\n                updatedAt,\n                posted_on_fb,\n                posted_on_insta,\n                posted_on_other,\n                posted_on_twitter,\n                email,\n                CASE WHEN rating = \"FIVE\" THEN 1 ELSE 0 END AS five_star_rating,\n                CASE WHEN (rating != \"FIVE\" AND rating != \"ZERO\") THEN 1 ELSE 0 END AS one_to_four_star_rating,\n                CASE\n                    WHEN rating = \"FIVE\" THEN 5\n                    WHEN rating = \"FOUR\" THEN 4\n                    WHEN rating = \"THREE\" THEN 3\n                    WHEN rating = \"TWO\" THEN 2\n                    WHEN rating = \"ONE\" THEN 1\n                    WHEN rating = \"ZERO\" THEN 0\n                    ELSE NULL\n                END AS rating_2,\n                CASE WHEN rating = \"FIVE\" THEN \"5 star reviews\" ELSE \"others\" END AS rating_3\n            FROM `the-pulse-405018.the_pulse.reviews_bq`\n            ")]

/-- The fields mapping of OpportunitiesForLSTool.table_info, keys in source order. -/
def opportunitiesFields : List (String × String) := [
  ("ghl_location_id", "Directly selected from the source table"),
  ("ghl_location_name", "Directly selected from the source table"),
  ("contact_id", "Directly selected from the source table"),
  ("contact_email", "Directly selected from the source table"),
  ("contact_tags", "Directly selected from the source table"),
  ("opportunity_created_date", "Directly selected from the source table"),
  ("opportunity_id", "Directly selected from the source table"),
  ("Leads", "CASE WHEN opportunity_id != '' THEN 1 ELSE 0 END"),
  ("Qualified", "CASE WHEN opportunity_id != '' AND opportunity_status != 'abandoned' THEN 1 ELSE 0 END"),
  ("Retained", "CASE WHEN opportunity_id != '' AND opportunity_stage_name = 'Retained' THEN 1 ELSE 0 END"),
  ("Open_1", "CASE WHEN opportunity_id != '' AND (opportunity_status = 'open' OR opportunity_status = 'open') THEN 1 ELSE 0 END"),
  ("Lost", "CASE WHEN opportunity_id != '' AND opportunity_status = 'lost' THEN 1 ELSE 0 END"),
  ("Signed_Cases", "CASE WHEN opportunity_id != '' AND opportunity_status = 'won' THEN 1 ELSE 0 END"),
  ("opportunity_pipeline_name", "Directly selected from the source table"),
  ("opportunity_pipeline_id", "Directly selected from the source table"),
  ("opportunity_stage_name", "Directly selected from the source table"),
  ("opportunity_stage_id", "Directly selected from the source table"),
  ("opportunity_source", "CASE WHEN opportunity_source = '' THEN 'Not Indicated' WHEN opportunity_source IS NULL THEN 'Not Indicated' WHEN opportunity_source = 'undefined' THEN 'Undefined' WHEN opportunity_source = 'LSA' THEN 'Undefined' ELSE opportunity_source END"),
  ("Revenue", "SELECT opportunity_value AS Revenue"),
  ("Status", "SELECT opportunity_status AS Status"),
  ("opportunity_assigned_user", "Directly selected from the source table"),
  ("Location", "CASE WHEN opportunity_location = '' THEN 'Not Indicated' WHEN opportunity_location IS NULL THEN 'Not Indicated' ELSE opportunity_location END"),
  ("Medium", "SELECT opportunity_medium AS Medium"),
  ("Type", "SELECT opportunity_case_type AS Type")]

/-- Entries of OpportunitiesForLSTool.table_info, in source order. -/
def opportunitiesInfo : List (String × PyVal) := [
  ("name", PyVal.str "opportunities_forLS"),
  ("description", PyVal.str "Provides information about opportunities data."),
  ("fields", PyVal.dict opportunitiesFields),
  ("source_table", PyVal.str "the-pulse-405018.the_pulse.lfgm_opportunities_bq"),
  ("partitioning", PyVal.str "PARTITION BY opportunity_created_date"),
  ("clustering", PyVal.str "CLUSTER BY ghl_location_id, opportunity_source, Location, Medium"),
  ("grouping", PyVal.str "none"),
  ("full_query", PyVal.str "\n            CREATE OR REPLACE TABLE `the-pulse-405018.the_pulse.opportunities_forLS`\n            PARTITION BY opportunity_created_date\n            CLUSTER BY ghl_location_id, opportunity_source, Location, Medium\n            AS\n            SELECT\n                ghl_location_id,\n                ghl_location_name,\n                contact_id,\n                contact_email,\n                contact_tags,\n                opportunity_created_date,\n                opportunity_id,\n                CASE WHEN opportunity_id != \"\" THEN 1 ELSE 0 END AS Leads,\n                CASE WHEN opportunity_id != \"\" AND opportunity_status != \"abandoned\" THEN 1 ELSE 0 END AS Qualified,\n                CASE WHEN opportunity_id != \"\" AND opportunity_stage_name = \"Retained\" THEN 1 ELSE 0 END AS Retained,\n                CASE WHEN opportunity_id != \"\" AND (opportunity_status = \"open\" OR opportunity_status = \"open\") THEN 1 ELSE 0 END AS Open_1, -- Not yet less retained\n                CASE WHEN opportunity_id != \"\" AND opportunity_status = \"lost\" THEN 1 ELSE 0 END AS Lost,\n                CASE WHEN opportunity_id != \"\" AND opportunity_status = \"won\" THEN 1 ELSE 0 END AS Signed_Cases,\n                opportunity_pipeline_name,\n                opportunity_pipeline_id,\n                opportunity_stage_name,\n                opportunity_stage_id,\n                CASE\n                    WHEN opportunity_source = \"\" THEN \"Not Indicated\"\n                    WHEN opportunity_source IS NULL THEN \"Not Indicated\"\n                    WHEN opportunity_source = \"undefined\" THEN \"Undefined\"\n                    WHEN opportunity_source = \"LSA\" THEN \"Undefined\"\n                    ELSE opportunity_source\n                END AS opportunity_source,\n                opportunity_value AS Revenue,\n                opportunity_status AS Status,\n                opportunity_assigned_user,\n                CASE\n                    WHEN opportunity_location = \"\" THEN \"Not Indicated\"\n                    WHEN opportunity_location IS NULL THEN \"Not Indicated\"\n                    ELSE opportunity_location\n                END AS Location,\n                opportunity_medium AS Medium,\n                opportunity_case_type AS Type\n            FROM `the-pulse-405018.the_pulse.lfgm_opportunities_bq`\n            UNION ALL\n            SELECT\n                \"ABC\" AS ghl_location_id,\n                \"ABC\" AS ghl_location_name,\n                \"ABC\" AS contact_id,\n                \"ABC\" AS contact_email,\n                \"ABC\" AS contact_tags,\n                NULL AS opportunity_created_date,\n                \"\" AS opportunity_id,\n                1 AS Leads,\n                1 AS Qualified,\n                1 AS Retained,\n                1 AS Open_1,\n                1 AS Lost,\n                1 AS Signed_Cases,\n                \"\" AS opportunity_pipeline_name,\n                \"\" AS opportunity_pipeline_id,\n                \"\" AS opportunity_stage_name,\n                \"Not Indicated\" AS opportunity_stage_id,\n                \"Not Indicated\" AS opportunity_source,\n                0 AS Revenue,\n                \"\" AS Status,\n                \"\" AS opportunity_assigned_user,\n                \"Not Indicated\" AS Location,\n                \"AS\" AS Medium,\n                \"\" AS Type\n            ")]

/-- The fields mapping of AdExpenseDataMonthlyForLSTool.table_info, keys in source order. -/
def adExpenseMonthlyFields : List (String × String) := [
  ("ghl_location_id", "Directly selected from the source table using: SELECT ghl_location_id"),
  ("ghl_location_name", "Directly selected from the source table using: SELECT ghl_location_name"),
  ("formatted_expense_monthyear", "Directly selected from the source table using: SELECT formatted_expense_monthyear"),
  ("Month", "Calculated using: 1, 3, 6, or 12 AS Month depending on the time period"),
  ("ad_expense", "Calculated using: SUM(ad_expense) AS ad_expense")]

/-- Entries of AdExpenseDataMonthlyForLSTool.table_info, in source order. -/
def adExpenseMonthlyInfo : List (String × PyVal) := [
  ("name", PyVal.str "ad_expense_data_monthly_forLS"),
  ("description", PyVal.str "Provides information about the structure and calculations in the ad_expense_data_monthly_forLS table."),
  ("fields", PyVal.dict adExpenseMonthlyFields),
  ("source_table", PyVal.str "the-pulse-405018.the_pulse.ad_expense_data_forLS"),
  ("time_periods", PyVal.list [
    "Last 1 month: WHERE DATE_TRUNC(formatted_expense_monthyear, MONTH) = DATE_TRUNC(DATE_SUB(CURRENT_DATE(), INTERVAL 1 MONTH), MONTH)",
    "Last 3 months: WHERE formatted_expense_monthyear >= DATE_TRUNC(DATE_SUB(CURRENT_DATE(), INTERVAL 3 MONTH), MONTH) AND formatted_expense_monthyear < DATE_TRUNC(CURRENT_DATE(), MONTH)",
    "Last 6 months: WHERE formatted_expense_monthyear >= DATE_TRUNC(DATE_SUB(CURRENT_DATE(), INTERVAL 6 MONTH), MONTH) AND formatted_expense_monthyear < DATE_TRUNC(CURRENT_DATE(), MONTH)",
    "Last 12 months: WHERE formatted_expense_monthyear >= DATE_TRUNC(DATE_SUB(CURRENT_DATE(), INTERVAL 12 MONTH), MONTH) AND formatted_expense_monthyear < DATE_TRUNC(CURRENT_DATE(), MONTH)"]),
  ("grouping", PyVal.str "GROUP BY ghl_location_id, ghl_location_name, formatted_expense_monthyear"),
  ("partitioning", PyVal.str "none"),
  ("clustering", PyVal.str "none"),
  ("full_query", PyVal.str "\n            CREATE OR REPLACE TABLE `the-pulse-405018.the_pulse.ad_expense_data_monthly_forLS` AS\n            -- For the last month\n            SELECT\n                ghl_location_id,\n                ghl_location_name,\n                formatted_expense_monthyear,\n                1 AS Month, -- Last month\n                SUM(ad_expense) AS ad_expense\n            FROM `the-pulse-405018.the_pulse.ad_expense_data_forLS`\n            WHERE DATE_TRUNC(formatted_expense_monthyear, MONTH) = DATE_TRUNC(DATE_SUB(CURRENT_DATE(), INTERVAL 1 MONTH), MONTH)\n            GROUP BY ghl_location_id, ghl_location_name, formatted_expense_monthyear\n\n            UNION ALL\n\n            -- For the last 3 months\n            SELECT\n                ghl_location_id,\n                ghl_location_name,\n                formatted_expense_monthyear,\n                3 AS Month, -- Last 3 months\n                SUM(ad_expense) AS ad_expense\n            FROM `the-pulse-405018.the_pulse.ad_expense_data_forLS`\n            WHERE formatted_expense_monthyear >= DATE_TRUNC(DATE_SUB(CURRENT_DATE(), INTERVAL 3 MONTH), MONTH)\n              AND formatted_expense_monthyear < DATE_TRUNC(CURRENT_DATE(), MONTH)\n            GROUP BY ghl_location_id, ghl_location_name, formatted_expense_monthyear\n\n            UNION ALL\n\n            -- For the last 6 months\n            SELECT\n                ghl_location_id,\n                ghl_location_name,\n                formatted_expense_monthyear,\n                6 AS Month, -- Last 6 months\n                SUM(ad_expense) AS ad_expense\n            FROM `the-pulse-405018.the_pulse.ad_expense_data_forLS`\n            WHERE formatted_expense_monthyear >= DATE_TRUNC(DATE_SUB(CURRENT_DATE(), INTERVAL 6 MONTH), MONTH)\n              AND formatted_expense_monthyear < DATE_TRUNC(CURRENT_DATE(), MONTH)\n            GROUP BY ghl_location_id, ghl_location_name, formatted_expense_monthyear\n\n            UNION ALL\n\n            -- For the last 12 months\n            SELECT\n                ghl_location_id,\n                ghl_location_name,\n                formatted_expense_monthyear,\n                12 AS Month, -- Last 12 months\n                SUM(ad_expense) AS ad_expense\n            FROM `the-pulse-405018.the_pulse.ad_expense_data_forLS`\n            WHERE formatted_expense_monthyear >= DATE_TRUNC(DATE_SUB(CURRENT_DATE(), INTERVAL 12 MONTH), MONTH)\n              AND formatted_expense_monthyear < DATE_TRUNC(CURRENT_DATE(), MONTH)\n            GROUP BY ghl_location_id, ghl_location_name, formatted_expense_monthyear\n            ")]

/-- The fields mapping of OpportunitiesMonthlyForLSTool.table_info, keys in source order. -/
def opportunitiesMonthlyFields : List (String × String) := [
  ("ghl_location_id", "Directly selected from the source table using: SELECT ghl_location_id"),
  ("ghl_location_name", "Directly selected from the source table using: SELECT ghl_location_name"),
  ("opportunity_created_date", "Directly selected from the source table using: SELECT opportunity_created_date"),
  ("Month", "Calculated using: 1, 3, 6, or 12 AS Month depending on the time period"),
  ("Leads", "Calculated using: SUM(Leads) AS Leads"),
  ("Qualified", "Calculated using: SUM(Qualified) AS Qualified"),
  ("Retained", "Calculated using: SUM(Retained) AS Retained"),
  ("Lost", "Calculated using: SUM(Lost) AS Lost"),
  ("Signed_Cases", "Calculated using: SUM(Signed_Cases) AS Signed_Cases"),
  ("Revenue", "Calculated using: SUM(Revenue) AS Revenue")]

/-- Entries of OpportunitiesMonthlyForLSTool.table_info, in source order. -/
def opportunitiesMonthlyInfo : List (String × PyVal) := [
  ("name", PyVal.str "opportunities_monthly_forLS"),
  ("description", PyVal.str "Provides information about the structure and calculations in the opportunities_monthly_forLS table."),
  ("fields", PyVal.dict opportunitiesMonthlyFields),
  ("source_table", PyVal.str "the-pulse-405018.the_pulse.opportunities_forLS"),
  ("time_periods", PyVal.list [
    "Last 1 month: WHERE DATE_TRUNC(opportunity_created_date, MONTH) = DATE_TRUNC(DATE_SUB(CURRENT_DATE(), INTERVAL 1 MONTH), MONTH)",
    "Last 3 months: WHERE opportunity_created_date >= DATE_TRUNC(DATE_SUB(CURRENT_DATE(), INTERVAL 3 MONTH), MONTH) AND opportunity_created_date < DATE_TRUNC(CURRENT_DATE(), MONTH)",
    "Last 6 months: WHERE opportunity_created_date >= DATE_TRUNC(DATE_SUB(CURRENT_DATE(), INTERVAL 6 MONTH), MONTH) AND opportunity_created_date < DATE_TRUNC(CURRENT_DATE(), MONTH)",
    "Last 12 months: WHERE opportunity_created_date >= DATE_TRUNC(DATE_SUB(CURRENT_DATE(), INTERVAL 12 MONTH), MONTH) AND opportunity_created_date < DATE_TRUNC(CURRENT_DATE(), MONTH)"]),
  ("grouping", PyVal.str "GROUP BY ghl_location_id, ghl_location_name, opportunity_created_date"),
  ("partitioning", PyVal.str "none"),
  ("clustering", PyVal.str "none"),
  ("full_query", PyVal.str "\n            CREATE OR REPLACE TABLE `the-pulse-405018.the_pulse.opportunities_monthly_forLS` AS\n            SELECT\n                ghl_location_id,\n                ghl_location_name,\n                opportunity_created_date,\n                1 AS Month, -- Last month\n                SUM(Leads) AS Leads,\n                SUM(Qualified) AS Qualified,\n                SUM(Retained) AS Retained,\n                SUM(Lost) AS Lost,\n                SUM(Signed_Cases) AS Signed_Cases,\n                SUM(Revenue) AS Revenue\n            FROM `the-pulse-405018.the_pulse.opportunities_forLS`\n            WHERE DATE_TRUNC(opportunity_created_date, MONTH) = DATE_TRUNC(DATE_SUB(CURRENT_DATE(), INTERVAL 1 MONTH), MONTH)\n            GROUP BY ghl_location_id, ghl_location_name, opportunity_created_date\n\n            UNION ALL\n\n            SELECT\n                ghl_location_id,\n                ghl_location_name,\n                opportunity_created_date,\n                3 AS Month, -- Last 3 months\n                SUM(Leads) AS Leads,\n                SUM(Qualified) AS Qualified,\n                SUM(Retained) AS Retained,\n                SUM(Lost) AS Lost,\n                SUM(Signed_Cases) AS Signed_Cases,\n                SUM(Revenue) AS Revenue\n            FROM `the-pulse-405018.the_pulse.opportunities_forLS`\n            WHERE opportunity_created_date >= DATE_TRUNC(DATE_SUB(CURRENT_DATE(), INTERVAL 3 MONTH), MONTH)\n              AND opportunity_created_date < DATE_TRUNC(CURRENT_DATE(), MONTH)\n            GROUP BY ghl_location_id, ghl_location_name, opportunity_created_date\n\n            UNION ALL\n\n            SELECT\n                ghl_location_id,\n                ghl_location_name,\n                opportunity_created_date,\n                6 AS Month, -- Last 6 months\n                SUM(Leads) AS Leads,\n                SUM(Qualified) AS Qualified,\n                SUM(Retained) AS Retained,\n                SUM(Lost) AS Lost,\n                SUM(Signed_Cases) AS Signed_Cases,\n                SUM(Revenue) AS Revenue\n            FROM `the-pulse-405018.the_pulse.opportunities_forLS`\n            WHERE opportunity_created_date >= DATE_TRUNC(DATE_SUB(CURRENT_DATE(), INTERVAL 6 MONTH), MONTH)\n              AND opportunity_created_date < DATE_TRUNC(CURRENT_DATE(), MONTH)\n            GROUP BY ghl_location_id, ghl_location_name, opportunity_created_date\n\n            UNION ALL\n\n            SELECT\n                ghl_location_id,\n                ghl_location_name,\n                opportunity_created_date,\n                12 AS Month, -- Last 12 months\n                SUM(Leads) AS Leads,\n                SUM(Qualified) AS Qualified,\n                SUM(Retained) AS Retained,\n                SUM(Lost) AS Lost,\n                SUM(Signed_Cases) AS Signed_Cases,\n                SUM(Revenue) AS Revenue\n            FROM `the-pulse-405018.the_pulse.opportunities_forLS`\n            WHERE opportunity_created_date >= DATE_TRUNC(DATE_SUB(CURRENT_DATE(), INTERVAL 12 MONTH), MONTH)\n              AND opportunity_created_date < DATE_TRUNC(CURRENT_DATE(), MONTH)\n            GROUP BY ghl_location_id, ghl_location_name, opportunity_created_date\n            ")]

/-- The fields mapping of CallsMonthlyForLSTool.table_info, keys in source order. -/
def callsMonthlyFields : List (String × String) := [
  ("ghl_location_id", "Directly selected from the source table using: SELECT ghl_location_id"),
  ("ghl_location_name", "Directly selected from the source table using: SELECT ghl_location_name"),
  ("call_date", "Directly selected from the source table using: SELECT call_date"),
  ("Month", "Calculated using: 1, 3, 6, or 12 AS Month depending on the time period"),
  ("Total_Calls", "Calculated using: SUM(Total_Calls) AS Total_Calls"),
  ("Answered_Calls", "Calculated using: SUM(Answered_Calls) AS Answered_Calls")]

/-- Entries of CallsMonthlyForLSTool.table_info, in source order. -/
def callsMonthlyInfo : List (String × PyVal) := [
  ("name", PyVal.str "calls_monthly_forLS"),
  ("description", PyVal.str "Provides information about the structure and calculations in the calls_monthly_forLS table."),
  ("fields", PyVal.dict callsMonthlyFields),
  ("source_table", PyVal.str "the-pulse-405018.the_pulse.calls_forLS"),
  ("time_periods", PyVal.list [
    "Last 1 month: WHERE DATE_TRUNC(call_date, MONTH) = DATE_TRUNC(DATE_SUB(CURRENT_DATE(), INTERVAL 1 MONTH), MONTH)",
    "Last 3 months: WHERE call_date >= DATE_TRUNC(DATE_SUB(CURRENT_DATE(), INTERVAL 3 MONTH), MONTH) AND call_date < DATE_TRUNC(CURRENT_DATE(), MONTH)",
    "Last 6 months: WHERE call_date >= DATE_TRUNC(DATE_SUB(CURRENT_DATE(), INTERVAL 6 MONTH), MONTH) AND call_date < DATE_TRUNC(CURRENT_DATE(), MONTH)",
    "Last 12 months: WHERE call_date >= DATE_TRUNC(DATE_SUB(CURRENT_DATE(), INTERVAL 12 MONTH), MONTH) AND call_date < DATE_TRUNC(CURRENT_DATE(), MONTH)"]),
  ("grouping", PyVal.str "GROUP BY ghl_location_id, ghl_location_name, call_date"),
  ("partitioning", PyVal.str "none"),
  ("clustering", PyVal.str "none"),
  ("full_query", PyVal.str "\n            CREATE OR REPLACE TABLE `the-pulse-405018.the_pulse.calls_monthly_forLS` AS\n            -- For the last month\n            SELECT\n                ghl_location_id,\n                ghl_location_name,\n                call_date,\n                1 AS Month, -- Last month\n                SUM(Total_Calls) AS Total_Calls,\n                SUM(Answered_Calls) AS Answered_Calls\n            FROM `the-pulse-405018.the_pulse.calls_forLS`\n            WHERE DATE_TRUNC(call_date, MONTH) = DATE_TRUNC(DATE_SUB(CURRENT_DATE(), INTERVAL 1 MONTH), MONTH)\n            GROUP BY ghl_location_id, ghl_location_name, call_date\n\n            UNION ALL\n\n            -- For the last 3 months\n            SELECT\n                ghl_location_id,\n                ghl_location_name,\n                call_date,\n                3 AS Month, -- Last 3 months\n                SUM(Total_Calls) AS Total_Calls,\n                SUM(Answered_Calls) AS Answered_Calls\n            FROM `the-pulse-405018.the_pulse.calls_forLS`\n            WHERE call_date >= DATE_TRUNC(DATE_SUB(CURRENT_DATE(), INTERVAL 3 MONTH), MONTH)\n              AND call_date < DATE_TRUNC(CURRENT_DATE(), MONTH)\n            GROUP BY ghl_location_id, ghl_location_name, call_date\n\n            UNION ALL\n\n            SELECT\n                ghl_location_id,\n                ghl_location_name,\n                call_date,\n                6 AS Month, -- Last 6 months\n                SUM(Total_Calls) AS Total_Calls,\n                SUM(Answered_Calls) AS Answered_Calls\n            FROM `the-pulse-405018.the_pulse.calls_forLS`\n            WHERE call_date >= DATE_TRUNC(DATE_SUB(CURRENT_DATE(), INTERVAL 6 MONTH), MONTH)\n              AND call_date < DATE_TRUNC(CURRENT_DATE(), MONTH)\n            GROUP BY ghl_location_id, ghl_location_name, call_date\n\n            UNION ALL\n\n            SELECT\n                ghl_location_id,\n                ghl_location_name,\n                call_date,\n                12 AS Month, -- Last 12 months\n                SUM(Total_Calls) AS Total_Calls,\n                SUM(Answered_Calls) AS Answered_Calls\n            FROM `the-pulse-405018.the_pulse.calls_forLS`\n            WHERE call_date >= DATE_TRUNC(DATE_SUB(CURRENT_DATE(), INTERVAL 12 MONTH), MONTH)\n              AND call_date < DATE_TRUNC(CURRENT_DATE(), MONTH)\n            GROUP BY ghl_location_id, ghl_location_name, call_date\n            ")]

/-- Entries of DataSchemaRoadmapTool.schema_map, in source order. -/
def schema_map : List (String × SchemaEntry) := [
  ("the_pulse.reviews_forLS", ⟨"Contains detailed review information",
    [ "id",
      "ghl_location_name",
      "ghl_location_id",
      "comments",
      "rating",
      "reviewer",
      "google_review_id",
      "review_added_on",
      "reviews_conversation",
      "is_posted_on_fb",
      "user_id",
      "review_id",
      "locationid",
      "review_path",
      "ai_generated_response",
      "createdAt",
      "updatedAt",
      "posted_on_fb",
      "posted_on_insta",
      "posted_on_other",
      "posted_on_twitter",
      "email",
      "five_star_rating",
      "one_to_four_star_rating",
      "rating_2",
      "rating_3"]⟩),
  ("the_pulse.opportunities_monthly_forLS", ⟨"Monthly aggregated data on sales opportunities",
    [ "ghl_location_id",
      "ghl_location_name",
      "opportunity_created_date",
      "Month",
      "Leads",
      "Qualified",
      "Retained",
      "Lost",
      "Signed_Cases",
      "Revenue"]⟩),
  ("the_pulse.calls_monthly_forLS", ⟨"Monthly aggregated call data",
    [ "ghl_location_id",
      "ghl_location_name",
      "call_date",
      "Month",
      "Total_Calls",
      "Answered_Calls"]⟩),
  ("the_pulse.calls_forLS", ⟨"Detailed call data",
    [ "ghl_location_id",
      "ghl_location_name",
      "call_date",
      "Total_Calls",
      "Answered_Calls",
      "Missed_Calls"]⟩),
  ("the_pulse.ad_expense_data_monthly_forLS", ⟨"Monthly aggregated ad expense data",
    [ "ghl_location_id",
      "ghl_location_name",
      "formatted_expense_monthyear",
      "Month",
      "ad_expense"]⟩),
  ("the_pulse.ad_expense_data_forLS", ⟨"Detailed ad expense data",
    [ "ghl_location_id",
      "ghl_location_name",
      "id",
      "ad_expense",
      "expense_monthyear",
      "expense_month",
      "expense_year",
      "converted_leads",
      "forecasted_revenue",
      "created_on",
      "updated_on",
      "formatted_expense_monthyear"]⟩),
  ("the_pulse.opportunities_forLS", ⟨"Detailed information on sales opportunities",
    [ "ghl_location_id",
      "ghl_location_name",
      "contact_id",
      "contact_email",
      "contact_tags",
      "opportunity_created_date",
      "opportunity_id",
      "Leads",
      "Qualified",
      "Retained",
      "Open_1",
      "Lost",
      "Signed_Cases",
      "opportunity_pipeline_name",
      "opportunity_pipeline_id",
      "opportunity_stage_name",
      "opportunity_stage_id",
      "opportunity_source",
      "Revenue",
      "Status",
      "opportunity_assigned_user",
      "Location",
      "Medium",
      "Type"]⟩)]

/-- Fixed text of the run_agent instruction template before the question. -/
def instrPre : String := "Use the following steps to answer this question about the 'the_pulse' dataset\n        in the 'the-pulse-405018' project:\n        "

/-- Fixed text of the run_agent instruction template after the question. -/
def instrPost : String := "\n        Steps:\n        1. Check the Data Schema Roadmap tool and identify the relevant table(s) for the query. Use the command \"list tables\".\n        2. After identifying the relevant table, select the appropriate tool from the tool roster.\n        3. To use the tool, do it like this:\n        - For information about a specific field: `ToolName._run(\"field_name\")`\n        - For the table structure: `ToolName._run(\"structure\")`\n        - For the full SQL query: `ToolName._run(\"full_query\")`\n        - For clustering information: `ToolName._run(\"clustering\")`\n        - For partitioning information: `ToolName._run(\"partitioning\")`\n        - For grouping information: `ToolName._run(\"grouping\")`\n        - For source table information: `ToolName._run(\"source_table\")`\n        - For time periods (if applicable): `ToolName._run(\"time_periods\")`\n        4. Identify in the tool the SQL query or queries used to create the data for the looker studio visualization.\n        5. Use the Bigquery tool to execute the query as described\n        6. Analyze the results for relevant information.\n        7. Interpret the results and provide a natural language answer.\n        Remember:\n        - Always use proper BigQuery syntax and table references.\n        - When formatting SQL queries, ensure that the syntax is correct and there are no extraneous characters.\n        - Do NOT add \"```sql\" before the query or \"```\" after. Instead, send the query directly.\n        - YOUR ACTION INPUT FOR BIG QUERY TOOL SHOULD NOT BE PRECEDED BY ```sql OR ``` AND SHOULD NOT END WITH ```. DOUBLE CHECK IT BEFORE SENDING\n        - ATTEMPT TO REPLICATE THE ORIGINAL QUERY INSTEAD OF MAKING YOUR OWN. ONLY MAKE YOUR OWN IF YOU CANNOT QUERY EXACTLY AS IT IS DONE IN THE TOOL.\n        - If you need to modify the original query, make sure to preserve the essential structure and only change the necessary parts to answer the specific question.\n        - Always consider the partitioning, clustering, and grouping of the table when writing or modifying queries for optimal performance.\n        "
/-- CallsForLSTool._run after `query = query.lower()`: dispatch on the
lowercased topic. -/
def callsRunQ (q : String) : String :=
  if q = "structure" then pyStrOfInfo callsInfo
  else if q ∈ callsFields.map Prod.fst then
    "Field '" ++ q ++ "': " ++ pyDictGetS callsFields q
  else if q = "clustering" ∨ q = "partitioning" ∨ q = "grouping" ∨ q = "full_query" then
    pyCapitalize q ++ ": " ++ pyFStr (pyGetItem callsInfo q)
  else if q = "source_table" then
    "Source Table: " ++ pyFStr (pyGetItem callsInfo "source_table")
  else
    "No information found for query: " ++ q

/-- CallsForLSTool._run (the second class definition, the one in effect). -/
def callsRun (query : String) : String := callsRunQ (pyLower query)

/-- AdExpenseDataForLSTool._run after lowercasing: only the structure and
field branches exist in this class. -/
def adExpenseRunQ (q : String) : String :=
  if q = "structure" then pyStrOfInfo adExpenseInfo
  else if q ∈ adExpenseFields.map Prod.fst then
    "Field '" ++ q ++ "': " ++ pyDictGetS adExpenseFields q
  else
    "No information found for query: " ++ q

/-- AdExpenseDataForLSTool._run. -/
def adExpenseRun (query : String) : String := adExpenseRunQ (pyLower query)

/-- ReviewsForLSTool._run after lowercasing: only the structure and field
branches exist in this class. -/
def reviewsRunQ (q : String) : String :=
  if q = "structure" then pyStrOfInfo reviewsInfo
  else if q ∈ reviewsFields.map Prod.fst then
    "Field '" ++ q ++ "': " ++ pyDictGetS reviewsFields q
  else
    "No information found for query: " ++ q

/-- ReviewsForLSTool._run. -/
def reviewsRun (query : String) : String := reviewsRunQ (pyLower query)

/-- OpportunitiesForLSTool._run after lowercasing. -/
def opportunitiesRunQ (q : String) : String :=
  if q = "structure" then pyStrOfInfo opportunitiesInfo
  else if q ∈ opportunitiesFields.map Prod.fst then
    "Field '" ++ q ++ "': " ++ pyDictGetS opportunitiesFields q
  else if q = "clustering" ∨ q = "partitioning" ∨ q = "grouping" ∨ q = "full_query" then
    pyCapitalize q ++ ": " ++ pyFStr (pyGetItem opportunitiesInfo q)
  else if q = "source_table" then
    "Source Table: " ++ pyFStr (pyGetItem opportunitiesInfo "source_table")
  else
    "No information found for query: " ++ q

/-- OpportunitiesForLSTool._run. -/
def opportunitiesRun (query : String) : String := opportunitiesRunQ (pyLower query)

/-- AdExpenseDataMonthlyForLSTool._run after lowercasing: its attribute
list also holds time_periods. -/
def adExpenseMonthlyRunQ (q : String) : String :=
  if q = "structure" then pyStrOfInfo adExpenseMonthlyInfo
  else if q ∈ adExpenseMonthlyFields.map Prod.fst then
    "Field '" ++ q ++ "': " ++ pyDictGetS adExpenseMonthlyFields q
  else if q = "clustering" ∨ q = "partitioning" ∨ q = "grouping" ∨ q = "full_query" ∨
      q = "time_periods" then
    pyCapitalize q ++ ": " ++ pyFStr (pyGetItem adExpenseMonthlyInfo q)
  else if q = "source_table" then
    "Source Table: " ++ pyFStr (pyGetItem adExpenseMonthlyInfo "source_table")
  else
    "No information found for query: " ++ q

/-- AdExpenseDataMonthlyForLSTool._run. -/
def adExpenseMonthlyRun (query : String) : String := adExpenseMonthlyRunQ (pyLower query)

/-- OpportunitiesMonthlyForLSTool._run after lowercasing: separate branches
for time_periods, grouping and full_query; no clustering, partitioning or
source_table branch. -/
def opportunitiesMonthlyRunQ (q : String) : String :=
  if q = "structure" then pyStrOfInfo opportunitiesMonthlyInfo
  else if q ∈ opportunitiesMonthlyFields.map Prod.fst then
    "Field '" ++ q ++ "': " ++ pyDictGetS opportunitiesMonthlyFields q
  else if q = "time_periods" then
    "Time Periods: " ++ pyFStr (pyGetItem opportunitiesMonthlyInfo "time_periods")
  else if q = "grouping" then
    "Grouping: " ++ pyFStr (pyGetItem opportunitiesMonthlyInfo "grouping")
  else if q = "full_query" then
    "Full Query: " ++ pyFStr (pyGetItem opportunitiesMonthlyInfo "full_query")
  else
    "No information found for query: " ++ q

/-- OpportunitiesMonthlyForLSTool._run. -/
def opportunitiesMonthlyRun (query : String) : String :=
  opportunitiesMonthlyRunQ (pyLower query)

/-- CallsMonthlyForLSTool._run after lowercasing: same branch shape as the
opportunities monthly tool. -/
def callsMonthlyRunQ (q : String) : String :=
  if q = "structure" then pyStrOfInfo callsMonthlyInfo
  else if q ∈ callsMonthlyFields.map Prod.fst then
    "Field '" ++ q ++ "': " ++ pyDictGetS callsMonthlyFields q
  else if q = "time_periods" then
    "Time Periods: " ++ pyFStr (pyGetItem callsMonthlyInfo "time_periods")
  else if q = "grouping" then
    "Grouping: " ++ pyFStr (pyGetItem callsMonthlyInfo "grouping")
  else if q = "full_query" then
    "Full Query: " ++ pyFStr (pyGetItem callsMonthlyInfo "full_query")
  else
    "No information found for query: " ++ q

/-- CallsMonthlyForLSTool._run. -/
def callsMonthlyRun (query : String) : String := callsMonthlyRunQ (pyLower query)

/-- The found/not-found body of the describe branch of
DataSchemaRoadmapTool._run, with the extracted table name as parameter. -/
def describeLookup (m : List (String × SchemaEntry)) (table_name : String) : String :=
  match m.find? (fun e => e.1 == table_name) with
  | some e =>
      "Table: " ++ table_name ++ "\nDescription: " ++ e.2.description ++
        "\nFields: " ++ joinSep ", " e.2.fields
  | none => "Table " ++ table_name ++ " not found in the schema map."

/-- DataSchemaRoadmapTool._run over an explicit schema map: the keyword is
checked on the lowercased input, while the table name is split out of the
original input (after its first space) without lowercasing. -/
def schemaRunWith (m : List (String × SchemaEntry)) (query : String) : String :=
  if pyLower query = "list tables" then
    joinSep "\n" (m.map Prod.fst)
  else if startsWithL (pyLower query).data "describe ".data then
    describeLookup m (String.mk (afterFirstSpace query.data))
  else
    "Invalid query. Use 'list tables' to see all tables or 'describe [table_name]' for details on a specific table."

/-- DataSchemaRoadmapTool._run on the catalog the constructor builds. -/
def schemaRun (query : String) : String := schemaRunWith schema_map query

/-- DataSchemaRoadmapTool._run with the tool state passed explicitly: the
method reads self.schema_map and assigns nothing, so the state comes back
unchanged. -/
def schemaRunSt (st : List (String × SchemaEntry)) (query : String) :
    String × List (String × SchemaEntry) :=
  (schemaRunWith st query, st)

/-- The outcome of a call into external code: a returned value, or the
message string of a raised exception. -/
inductive PyResult (α : Type) where
  | ok (a : α)
  | exn (msg : String)

/-- One BigQuery result row as dict(row): field names to values. -/
abbrev Row := List (String × PyVal)

/-- Python str([dict(row) for row in results]). -/
def strRowList (rows : List Row) : String :=
  "[" ++ joinSep ", " (rows.map pyStrOfInfo) ++ "]"

/-- execute_bigquery: the warehouse call client.query(query).result() is
external and modelled as one fallible function; an exception anywhere in
the try block becomes the error-prefixed string. -/
def execute_bigquery (client : String → PyResult (List Row)) (query : String) : String :=
  match client query with
  | .ok results => strRowList results
  | .exn e => "An error occurred: " ++ e

/-- The instruction text run_agent builds around the user's question. -/
def agentInstructions (prompt : String) : String := instrPre ++ prompt ++ instrPost

/-- run_agent: agent.run is the external reasoning engine, modelled as a
fallible function from instruction text to answer; an exception anywhere in
the try block becomes the error-prefixed string. -/
def run_agent (engine : String → PyResult String) (prompt : String) : String :=
  match engine (agentInstructions prompt) with
  | .ok result => result
  | .exn e => "An error occurred: " ++ e

/-- What setup_agent fixes: the named tool bindings, the ChatOpenAI
sampling temperature, the model name, and the initialize_agent iteration
ceiling. -/
structure AgentConfig where
  tools : List (String × (String → String))
  temperature : Nat
  model : String
  maxIterations : Nat

/-- setup_agent: the nine tool bindings in source order (BigQuery bound to
the executor over the session's client, the schema roadmap, and the seven
table tools), temperature 0, model gpt-4, max_iterations 5. -/
def setup_agent (client : String → PyResult (List Row)) : AgentConfig :=
  { tools := [
      ("BigQuery", execute_bigquery client),
      ("Data Schema Roadmap", schemaRun),
      ("Calls_ForLS", callsRun),
      ("Opportunities_ForLS", opportunitiesRun),
      ("Ad_Expense_Data_ForLS", adExpenseRun),
      ("Reviews_ForLS", reviewsRun),
      ("Ad_Expense_Data_Monthly_ForLS", adExpenseMonthlyRun),
      ("Opportunities_Monthly_ForLS", opportunitiesMonthlyRun),
      ("Calls_Monthly_ForLS", callsMonthlyRun)],
    temperature := 0,
    model := "gpt-4",
    maxIterations := 5 }

/-- One table contract provider as the claims quantify over them: its
table_info, its fields dict, the vocabulary of strings its _run compares
the lowercased topic against, and the _run method. -/
structure Provider where
  info : List (String × PyVal)
  fields : List (String × String)
  vocab : List String
  run : String → String

/-- Every string CallsForLSTool._run compares the lowercased topic to. -/
def callsVocab : List String :=
  ["structure", "clustering", "partitioning", "grouping", "full_query", "source_table"] ++
    callsFields.map Prod.fst

/-- Every string AdExpenseDataForLSTool._run compares the topic to. -/
def adExpenseVocab : List String :=
  ["structure"] ++ adExpenseFields.map Prod.fst

/-- Every string ReviewsForLSTool._run compares the topic to. -/
def reviewsVocab : List String :=
  ["structure"] ++ reviewsFields.map Prod.fst

/-- Every string OpportunitiesForLSTool._run compares the topic to. -/
def opportunitiesVocab : List String :=
  ["structure", "clustering", "partitioning", "grouping", "full_query", "source_table"] ++
    opportunitiesFields.map Prod.fst

/-- Every string AdExpenseDataMonthlyForLSTool._run compares the topic to. -/
def adExpenseMonthlyVocab : List String :=
  ["structure", "clustering", "partitioning", "grouping", "full_query", "time_periods",
    "source_table"] ++ adExpenseMonthlyFields.map Prod.fst

/-- Every string OpportunitiesMonthlyForLSTool._run compares the topic to. -/
def opportunitiesMonthlyVocab : List String :=
  ["structure", "time_periods", "grouping", "full_query"] ++
    opportunitiesMonthlyFields.map Prod.fst

/-- Every string CallsMonthlyForLSTool._run compares the topic to. -/
def callsMonthlyVocab : List String :=
  ["structure", "time_periods", "grouping", "full_query"] ++
    callsMonthlyFields.map Prod.fst

/-- The calls provider bundle. -/
def callsProvider : Provider := ⟨callsInfo, callsFields, callsVocab, callsRun⟩

/-- The detailed ad-expense provider bundle. -/
def adExpenseProvider : Provider := ⟨adExpenseInfo, adExpenseFields, adExpenseVocab, adExpenseRun⟩

/-- The reviews provider bundle. -/
def reviewsProvider : Provider := ⟨reviewsInfo, reviewsFields, reviewsVocab, reviewsRun⟩

/-- The detailed opportunities provider bundle. -/
def opportunitiesProvider : Provider :=
  ⟨opportunitiesInfo, opportunitiesFields, opportunitiesVocab, opportunitiesRun⟩

/-- The monthly ad-expense provider bundle. -/
def adExpenseMonthlyProvider : Provider :=
  ⟨adExpenseMonthlyInfo, adExpenseMonthlyFields, adExpenseMonthlyVocab, adExpenseMonthlyRun⟩

/-- The monthly opportunities provider bundle. -/
def opportunitiesMonthlyProvider : Provider :=
  ⟨opportunitiesMonthlyInfo, opportunitiesMonthlyFields, opportunitiesMonthlyVocab,
    opportunitiesMonthlyRun⟩

/-- The monthly calls provider bundle. -/
def callsMonthlyProvider : Provider :=
  ⟨callsMonthlyInfo, callsMonthlyFields, callsMonthlyVocab, callsMonthlyRun⟩

/-- All seven table contract providers. -/
def providers : List Provider :=
  [callsProvider, adExpenseProvider, reviewsProvider, opportunitiesProvider,
    adExpenseMonthlyProvider, opportunitiesMonthlyProvider, callsMonthlyProvider]

/-- The six attribute topics of the closed vocabulary. -/
def attrTopics : List String :=
  ["clustering", "partitioning", "grouping", "full_query", "source_table", "time_periods"]
/-- A list starting with its whole pattern passes the prefix test. -/
theorem startsWithL_append (p r : List Char) : startsWithL (p ++ r) p = true := by
  induction p with
  | nil => cases r <;> rfl
  | cons c cs ih => simp [startsWithL, ih]

/-- find? over an association list misses when the key is not among the
stored keys. -/
theorem find_none_of_key_not_mem {β : Type} (q : String) (l : List (String × β))
    (h : q ∉ l.map Prod.fst) : l.find? (fun e => e.1 == q) = none := by
  induction l with
  | nil => rfl
  | cons x xs ih =>
      simp only [List.map_cons, List.mem_cons, not_or] at h
      rw [List.find?_cons_of_neg, ih h.2]
      exact fun he => h.1 (beq_iff_eq.mp he).symm

/-- Python str.lower distributes over concatenation. -/
theorem pyLower_append (a b : String) : pyLower (a ++ b) = pyLower a ++ pyLower b := by
  apply String.ext
  show (a.data ++ b.data).map lowerChar = a.data.map lowerChar ++ b.data.map lowerChar
  exact List.map_append lowerChar a.data b.data

/-- A string whose lowercasing is the spaceless word describe holds no
space itself. -/
theorem no_space_of_lower_describe (w : String) (hw : pyLower w = "describe") :
    ' ' ∉ w.data := by
  intro hm
  have h1 : lowerChar ' ' ∈ w.data.map lowerChar := List.mem_map_of_mem _ hm
  have h2 : w.data.map lowerChar = ("describe" : String).data := congrArg String.data hw
  rw [h2, show lowerChar ' ' = ' ' from by decide] at h1
  exact absurd h1 (by decide)

/-- Splitting at the first space of w-space-t returns t when w is
spaceless. -/
theorem afterFirstSpace_append (w t : List Char) (hw : ' ' ∉ w) :
    afterFirstSpace (w ++ ' ' :: t) = t := by
  induction w with
  | nil => simp [afterFirstSpace]
  | cons c cs ih =>
      have hc : ¬ c = ' ' := fun h => hw (by rw [h]; exact List.mem_cons_self _ _)
      rw [List.cons_append,
        show afterFirstSpace (c :: (cs ++ ' ' :: t)) =
          if c = ' ' then cs ++ ' ' :: t else afterFirstSpace (cs ++ ' ' :: t) from rfl,
        if_neg hc, ih (fun h => hw (List.mem_cons_of_mem _ h))]

/-- CallsForLSTool._run falls through to the diagnostic on a lowercased
topic outside its comparison vocabulary. -/
theorem callsRunQ_unknown (q : String) (h : q ∉ callsVocab) :
    callsRunQ q = "No information found for query: " ++ q := by
  have hn : ∀ v ∈ callsVocab, ¬ q = v := fun v hv he => h (he ▸ hv)
  have hk : q ∉ callsFields.map Prod.fst := fun hm =>
    h (show q ∈ callsVocab from List.mem_append_right _ hm)
  have hattr : ¬(q = "clustering" ∨ q = "partitioning" ∨ q = "grouping" ∨ q = "full_query") := by
    rintro (he | he | he | he)
    exacts [hn "clustering" (by decide) he, hn "partitioning" (by decide) he,
      hn "grouping" (by decide) he, hn "full_query" (by decide) he]
  unfold callsRunQ
  rw [if_neg (hn "structure" (by decide)), if_neg hk, if_neg hattr,
    if_neg (hn "source_table" (by decide))]

/-- AdExpenseDataForLSTool._run falls through to the diagnostic on a
lowercased topic outside its comparison vocabulary. -/
theorem adExpenseRunQ_unknown (q : String) (h : q ∉ adExpenseVocab) :
    adExpenseRunQ q = "No information found for query: " ++ q := by
  have hn : ∀ v ∈ adExpenseVocab, ¬ q = v := fun v hv he => h (he ▸ hv)
  have hk : q ∉ adExpenseFields.map Prod.fst := fun hm =>
    h (show q ∈ adExpenseVocab from List.mem_append_right _ hm)
  unfold adExpenseRunQ
  rw [if_neg (hn "structure" (by decide)), if_neg hk]

/-- ReviewsForLSTool._run falls through to the diagnostic on a lowercased
topic outside its comparison vocabulary. -/
theorem reviewsRunQ_unknown (q : String) (h : q ∉ reviewsVocab) :
    reviewsRunQ q = "No information found for query: " ++ q := by
  have hn : ∀ v ∈ reviewsVocab, ¬ q = v := fun v hv he => h (he ▸ hv)
  have hk : q ∉ reviewsFields.map Prod.fst := fun hm =>
    h (show q ∈ reviewsVocab from List.mem_append_right _ hm)
  unfold reviewsRunQ
  rw [if_neg (hn "structure" (by decide)), if_neg hk]

/-- OpportunitiesForLSTool._run falls through to the diagnostic on a
lowercased topic outside its comparison vocabulary. -/
theorem opportunitiesRunQ_unknown (q : String) (h : q ∉ opportunitiesVocab) :
    opportunitiesRunQ q = "No information found for query: " ++ q := by
  have hn : ∀ v ∈ opportunitiesVocab, ¬ q = v := fun v hv he => h (he ▸ hv)
  have hk : q ∉ opportunitiesFields.map Prod.fst := fun hm =>
    h (show q ∈ opportunitiesVocab from List.mem_append_right _ hm)
  have hattr : ¬(q = "clustering" ∨ q = "partitioning" ∨ q = "grouping" ∨ q = "full_query") := by
    rintro (he | he | he | he)
    exacts [hn "clustering" (by decide) he, hn "partitioning" (by decide) he,
      hn "grouping" (by decide) he, hn "full_query" (by decide) he]
  unfold opportunitiesRunQ
  rw [if_neg (hn "structure" (by decide)), if_neg hk, if_neg hattr,
    if_neg (hn "source_table" (by decide))]

/-- AdExpenseDataMonthlyForLSTool._run falls through to the diagnostic on a
lowercased topic outside its comparison vocabulary. -/
theorem adExpenseMonthlyRunQ_unknown (q : String) (h : q ∉ adExpenseMonthlyVocab) :
    adExpenseMonthlyRunQ q = "No information found for query: " ++ q := by
  have hn : ∀ v ∈ adExpenseMonthlyVocab, ¬ q = v := fun v hv he => h (he ▸ hv)
  have hk : q ∉ adExpenseMonthlyFields.map Prod.fst := fun hm =>
    h (show q ∈ adExpenseMonthlyVocab from List.mem_append_right _ hm)
  have hattr : ¬(q = "clustering" ∨ q = "partitioning" ∨ q = "grouping" ∨ q = "full_query" ∨
      q = "time_periods") := by
    rintro (he | he | he | he | he)
    exacts [hn "clustering" (by decide) he, hn "partitioning" (by decide) he,
      hn "grouping" (by decide) he, hn "full_query" (by decide) he,
      hn "time_periods" (by decide) he]
  unfold adExpenseMonthlyRunQ
  rw [if_neg (hn "structure" (by decide)), if_neg hk, if_neg hattr,
    if_neg (hn "source_table" (by decide))]

/-- OpportunitiesMonthlyForLSTool._run falls through to the diagnostic on a
lowercased topic outside its comparison vocabulary. -/
theorem opportunitiesMonthlyRunQ_unknown (q : String) (h : q ∉ opportunitiesMonthlyVocab) :
    opportunitiesMonthlyRunQ q = "No information found for query: " ++ q := by
  have hn : ∀ v ∈ opportunitiesMonthlyVocab, ¬ q = v := fun v hv he => h (he ▸ hv)
  have hk : q ∉ opportunitiesMonthlyFields.map Prod.fst := fun hm =>
    h (show q ∈ opportunitiesMonthlyVocab from List.mem_append_right _ hm)
  unfold opportunitiesMonthlyRunQ
  rw [if_neg (hn "structure" (by decide)), if_neg hk, if_neg (hn "time_periods" (by decide)),
    if_neg (hn "grouping" (by decide)), if_neg (hn "full_query" (by decide))]

/-- CallsMonthlyForLSTool._run falls through to the diagnostic on a
lowercased topic outside its comparison vocabulary. -/
theorem callsMonthlyRunQ_unknown (q : String) (h : q ∉ callsMonthlyVocab) :
    callsMonthlyRunQ q = "No information found for query: " ++ q := by
  have hn : ∀ v ∈ callsMonthlyVocab, ¬ q = v := fun v hv he => h (he ▸ hv)
  have hk : q ∉ callsMonthlyFields.map Prod.fst := fun hm =>
    h (show q ∈ callsMonthlyVocab from List.mem_append_right _ hm)
  unfold callsMonthlyRunQ
  rw [if_neg (hn "structure" (by decide)), if_neg hk, if_neg (hn "time_periods" (by decide)),
    if_neg (hn "grouping" (by decide)), if_neg (hn "full_query" (by decide))]

/-- Two strings with the same character data are equal. -/
theorem strExt {a b : String} (h : a.data = b.data) : a = b := by
  cases a; cases b; cases h; rfl

/-- Character data of a concatenation. -/
theorem strData_append (a b : String) : (a ++ b).data = a.data ++ b.data := rfl

/-- String concatenation is associative. -/
theorem strAppend_assoc (a b c : String) : a ++ b ++ c = a ++ (b ++ c) :=
  strExt (List.append_assoc a.data b.data c.data)

/-- Joining with the last element split off, for a non-empty front. -/
theorem joinSep_append_singleton (sep y : String) (xs : List String) (h : xs ≠ []) :
    joinSep sep (xs ++ [y]) = joinSep sep xs ++ sep ++ y := by
  induction xs with
  | nil => exact absurd rfl h
  | cons x xs ih =>
      cases xs with
      | nil => rfl
      | cons z zs =>
          rw [List.cons_append,
            show joinSep sep (x :: ((z :: zs) ++ [y])) =
              x ++ sep ++ joinSep sep ((z :: zs) ++ [y]) from rfl,
            ih (by simp)]
          simp only [strAppend_assoc]
          rw [show joinSep sep (x :: z :: zs) = x ++ sep ++ joinSep sep (z :: zs) from rfl]
          simp only [strAppend_assoc]

/-- Rendering a table_info dict whose last entry is a string value: the
repr of that value stands between the rendering of the front and the
closing brace. -/
theorem pyStrOfInfo_last_str (init : List (String × PyVal)) (k s : String)
    (h : init ≠ []) :
    pyStrOfInfo (init ++ [(k, PyVal.str s)]) =
      ("\x7b" ++ joinSep ", " (init.map fun e => pyReprStr e.1 ++ ": " ++ pyReprVal e.2) ++
        ", " ++ pyReprStr k ++ ": ") ++ pyReprStr s ++ "\x7d" := by
  unfold pyStrOfInfo
  rw [List.map_append, List.map_cons, List.map_nil,
    joinSep_append_singleton _ _ _ (by simpa using h)]
  simp only [pyReprVal, strAppend_assoc]

/-- pyEscChar never emits a newline when the quote is not one: the newline
escape branch replaces it by backslash-n. -/
theorem pyEscChar_no_newline (q c : Char) (hq : q ≠ '\n') :
    '\n' ∉ (pyEscChar q c).data := by
  unfold pyEscChar
  split
  · decide
  next h1 =>
    split
    · decide
    next h2 =>
      split
      · decide
      next h3 =>
        split
        · decide
        next h4 =>
          split
          next h5 =>
            intro hm
            rcases List.mem_cons.mp hm with h | h
            · exact absurd h (by decide)
            · exact hq (List.mem_singleton.mp h).symm
          next h5 =>
            intro hm
            exact h2 (List.mem_singleton.mp hm).symm

/-- A concatenation of newline-free strings is newline-free. -/
theorem strAppend_no_newline {a b : String} (ha : '\n' ∉ a.data) (hb : '\n' ∉ b.data) :
    '\n' ∉ (a ++ b).data := by
  intro hm
  rw [strData_append] at hm
  rcases List.mem_append.mp hm with h | h
  exacts [ha h, hb h]

/-- Joining newline-free strings with a newline-free separator is
newline-free. -/
theorem joinSep_no_newline (sep : String) (hsep : '\n' ∉ sep.data) (l : List String)
    (h : ∀ s ∈ l, '\n' ∉ s.data) : '\n' ∉ (joinSep sep l).data := by
  induction l with
  | nil => exact fun hm => (List.not_mem_nil '\n') hm
  | cons x xs ih =>
      cases xs with
      | nil => exact h x (List.mem_singleton.mpr rfl)
      | cons y ys =>
          intro hm
          have hm' : '\n' ∈ (x ++ sep ++ joinSep sep (y :: ys)).data := hm
          rw [strData_append, strData_append] at hm'
          rcases List.mem_append.mp hm' with h2 | h2
          · rcases List.mem_append.mp h2 with h3 | h3
            · exact h x (List.mem_cons_self _ _) h3
            · exact hsep h3
          · exact ih (fun s hs => h s (List.mem_cons_of_mem _ hs)) h2

/-- The quote character Python repr picks is never a newline. -/
theorem pyQuote_ne_newline (s : String) : pyQuote s ≠ '\n' := by
  unfold pyQuote
  split <;> decide

/-- Python repr of a string holds no raw newline: every newline of the text
is escaped to backslash-n. -/
theorem pyReprStr_no_newline (s : String) : '\n' ∉ (pyReprStr s).data := by
  unfold pyReprStr
  intro hm
  rw [strData_append, strData_append] at hm
  have hq := pyQuote_ne_newline s
  rcases List.mem_append.mp hm with h1 | h1
  · rcases List.mem_append.mp h1 with h2 | h2
    · exact hq (List.mem_singleton.mp h2).symm
    · refine joinSep_no_newline "" (by decide) _ ?_ h2
      intro t ht
      rcases List.mem_map.mp ht with ⟨c, _, rfl⟩
      exact pyEscChar_no_newline _ c hq
  · exact hq (List.mem_singleton.mp h1).symm

/-- Python repr of any table_info value holds no raw newline. -/
theorem pyReprVal_no_newline (v : PyVal) : '\n' ∉ (pyReprVal v).data := by
  cases v with
  | str s => exact pyReprStr_no_newline s
  | dict es =>
      refine strAppend_no_newline (strAppend_no_newline (by decide) ?_) (by decide)
      refine joinSep_no_newline ", " (by decide) _ ?_
      intro t ht
      rcases List.mem_map.mp ht with ⟨e, _, rfl⟩
      exact strAppend_no_newline (strAppend_no_newline (pyReprStr_no_newline _) (by decide))
        (pyReprStr_no_newline _)
  | list xs =>
      refine strAppend_no_newline (strAppend_no_newline (by decide) ?_) (by decide)
      refine joinSep_no_newline ", " (by decide) _ ?_
      intro t ht
      rcases List.mem_map.mp ht with ⟨x, _, rfl⟩
      exact pyReprStr_no_newline x

/-- str(table_info) holds no raw newline at all: the whole structure answer
is one repr-escaped line. -/
theorem pyStrOfInfo_no_newline (info : List (String × PyVal)) :
    '\n' ∉ (pyStrOfInfo info).data := by
  refine strAppend_no_newline (strAppend_no_newline (by decide) ?_) (by decide)
  refine joinSep_no_newline ", " (by decide) _ ?_
  intro t ht
  rcases List.mem_map.mp ht with ⟨e, _, rfl⟩
  exact strAppend_no_newline (strAppend_no_newline (pyReprStr_no_newline _) (by decide))
    (pyReprVal_no_newline _)
/-- The head given by head? is a member. -/
theorem mem_of_head_some {α : Type} {l : List α} {a : α} (h : l.head? = some a) :
    a ∈ l := by
  cases l with
  | nil => cases h
  | cons x xs =>
      cases h
      exact List.mem_cons_self _ _

/-- A table_info whose last entry is full_query with a string value renders
with that value's repr between a front and a closing brace. -/
theorem structure_decomp (info : List (String × PyVal)) (s : String)
    (hinfo : info = info.dropLast ++ [("full_query", PyVal.str s)])
    (hne : info.dropLast ≠ []) :
    ∃ A B, pyStrOfInfo info = A ++ pyReprStr s ++ B := by
  refine ⟨"\x7b" ++ joinSep ", "
      (info.dropLast.map fun e => pyReprStr e.1 ++ ": " ++ pyReprVal e.2) ++
      ", " ++ pyReprStr "full_query" ++ ": ", "\x7d", ?_⟩
  conv_lhs => rw [hinfo]
  exact pyStrOfInfo_last_str _ _ _ hne

/-- C1: the claim fails on the code.  _run lowercases the supplied topic but
the fields dicts store mixed-case keys, so every mixed-case field name —
Total_Calls of the calls tool, Leads of the monthly opportunities tool — is
listed in table_info yet unreachable: _run returns the No-information
diagnostic for it under every casing of the input. -/
theorem C1_mixed_case_fields_unreachable :
    "Total_Calls" ∈ callsFields.map Prod.fst ∧
    "Leads" ∈ opportunitiesMonthlyFields.map Prod.fst ∧
    callsRun "Total_Calls" = "No information found for query: total_calls" ∧
    callsRun "total_calls" = "No information found for query: total_calls" ∧
    opportunitiesMonthlyRun "Leads" = "No information found for query: leads" := by
  decide

/-- C2 counterexample: the detailed ad-expense provider stores a clustering
attribute in its table_info, yet its _run has no attribute branch, so
query("clustering") returns the generic No-information diagnostic instead
of the attribute (and instead of any not-applicable message tied to a
missing attribute). -/
theorem C2_attr_topic_counterexample :
    pyGetItem adExpenseInfo "clustering" = PyVal.str "CLUSTER BY ghl_location_id" ∧
    adExpenseRun "clustering" = "No information found for query: clustering" ∧
    strContains (adExpenseRun "clustering") "CLUSTER BY ghl_location_id" = false := by
  decide

/-- C2 amended: for every provider and every attribute topic of the closed
vocabulary, _run returns a string (no exception is possible): either a
labelled rendering of the attribute's value, or the generic No-information
diagnostic — the diagnostic also arises when table_info holds the
attribute but the provider's _run has no branch for it.  In particular
query("time_periods") on the reviews provider returns the diagnostic. -/
theorem C2_attr_topics_amended :
    (∀ p ∈ providers, ∀ topic ∈ attrTopics,
      p.run topic = "No information found for query: " ++ topic ∨
      ∃ label, p.run topic = label ++ pyFStr (pyGetItem p.info topic)) ∧
    reviewsRun "time_periods" = "No information found for query: time_periods" := by
  constructor
  · intro p hp topic ht
    fin_cases hp <;> fin_cases ht
    exacts [
      Or.inr ⟨"Clustering: ", by
        calc callsRun "clustering"
            = pyCapitalize (pyLower "clustering") ++ ": " ++
                pyFStr (pyGetItem callsInfo (pyLower "clustering")) := rfl
          _ = "Clustering: " ++ pyFStr (pyGetItem callsInfo "clustering") := by
              rw [show pyLower "clustering" = "clustering" from by decide,
                show pyCapitalize "clustering" ++ ": " = "Clustering: " from by decide]⟩,
      Or.inr ⟨"Partitioning: ", by
        calc callsRun "partitioning"
            = pyCapitalize (pyLower "partitioning") ++ ": " ++
                pyFStr (pyGetItem callsInfo (pyLower "partitioning")) := rfl
          _ = "Partitioning: " ++ pyFStr (pyGetItem callsInfo "partitioning") := by
              rw [show pyLower "partitioning" = "partitioning" from by decide,
                show pyCapitalize "partitioning" ++ ": " = "Partitioning: " from by decide]⟩,
      Or.inr ⟨"Grouping: ", by
        calc callsRun "grouping"
            = pyCapitalize (pyLower "grouping") ++ ": " ++
                pyFStr (pyGetItem callsInfo (pyLower "grouping")) := rfl
          _ = "Grouping: " ++ pyFStr (pyGetItem callsInfo "grouping") := by
              rw [show pyLower "grouping" = "grouping" from by decide,
                show pyCapitalize "grouping" ++ ": " = "Grouping: " from by decide]⟩,
      Or.inr ⟨"Full_query: ", by
        calc callsRun "full_query"
            = pyCapitalize (pyLower "full_query") ++ ": " ++
                pyFStr (pyGetItem callsInfo (pyLower "full_query")) := rfl
          _ = "Full_query: " ++ pyFStr (pyGetItem callsInfo "full_query") := by
              rw [show pyLower "full_query" = "full_query" from by decide,
                show pyCapitalize "full_query" ++ ": " = "Full_query: " from by decide]⟩,
      Or.inr ⟨"Source Table: ", rfl⟩,
      Or.inl (by decide),
      Or.inl (by decide),
      Or.inl (by decide),
      Or.inl (by decide),
      Or.inl (by decide),
      Or.inl (by decide),
      Or.inl (by decide),
      Or.inl (by decide),
      Or.inl (by decide),
      Or.inl (by decide),
      Or.inl (by decide),
      Or.inl (by decide),
      Or.inl (by decide),
      Or.inr ⟨"Clustering: ", by
        calc opportunitiesRun "clustering"
            = pyCapitalize (pyLower "clustering") ++ ": " ++
                pyFStr (pyGetItem opportunitiesInfo (pyLower "clustering")) := rfl
          _ = "Clustering: " ++ pyFStr (pyGetItem opportunitiesInfo "clustering") := by
              rw [show pyLower "clustering" = "clustering" from by decide,
                show pyCapitalize "clustering" ++ ": " = "Clustering: " from by decide]⟩,
      Or.inr ⟨"Partitioning: ", by
        calc opportunitiesRun "partitioning"
            = pyCapitalize (pyLower "partitioning") ++ ": " ++
                pyFStr (pyGetItem opportunitiesInfo (pyLower "partitioning")) := rfl
          _ = "Partitioning: " ++ pyFStr (pyGetItem opportunitiesInfo "partitioning") := by
              rw [show pyLower "partitioning" = "partitioning" from by decide,
                show pyCapitalize "partitioning" ++ ": " = "Partitioning: " from by decide]⟩,
      Or.inr ⟨"Grouping: ", by
        calc opportunitiesRun "grouping"
            = pyCapitalize (pyLower "grouping") ++ ": " ++
                pyFStr (pyGetItem opportunitiesInfo (pyLower "grouping")) := rfl
          _ = "Grouping: " ++ pyFStr (pyGetItem opportunitiesInfo "grouping") := by
              rw [show pyLower "grouping" = "grouping" from by decide,
                show pyCapitalize "grouping" ++ ": " = "Grouping: " from by decide]⟩,
      Or.inr ⟨"Full_query: ", by
        calc opportunitiesRun "full_query"
            = pyCapitalize (pyLower "full_query") ++ ": " ++
                pyFStr (pyGetItem opportunitiesInfo (pyLower "full_query")) := rfl
          _ = "Full_query: " ++ pyFStr (pyGetItem opportunitiesInfo "full_query") := by
              rw [show pyLower "full_query" = "full_query" from by decide,
                show pyCapitalize "full_query" ++ ": " = "Full_query: " from by decide]⟩,
      Or.inr ⟨"Source Table: ", rfl⟩,
      Or.inl (by decide),
      Or.inr ⟨"Clustering: ", by
        calc adExpenseMonthlyRun "clustering"
            = pyCapitalize (pyLower "clustering") ++ ": " ++
                pyFStr (pyGetItem adExpenseMonthlyInfo (pyLower "clustering")) := rfl
          _ = "Clustering: " ++ pyFStr (pyGetItem adExpenseMonthlyInfo "clustering") := by
              rw [show pyLower "clustering" = "clustering" from by decide,
                show pyCapitalize "clustering" ++ ": " = "Clustering: " from by decide]⟩,
      Or.inr ⟨"Partitioning: ", by
        calc adExpenseMonthlyRun "partitioning"
            = pyCapitalize (pyLower "partitioning") ++ ": " ++
                pyFStr (pyGetItem adExpenseMonthlyInfo (pyLower "partitioning")) := rfl
          _ = "Partitioning: " ++ pyFStr (pyGetItem adExpenseMonthlyInfo "partitioning") := by
              rw [show pyLower "partitioning" = "partitioning" from by decide,
                show pyCapitalize "partitioning" ++ ": " = "Partitioning: " from by decide]⟩,
      Or.inr ⟨"Grouping: ", by
        calc adExpenseMonthlyRun "grouping"
            = pyCapitalize (pyLower "grouping") ++ ": " ++
                pyFStr (pyGetItem adExpenseMonthlyInfo (pyLower "grouping")) := rfl
          _ = "Grouping: " ++ pyFStr (pyGetItem adExpenseMonthlyInfo "grouping") := by
              rw [show pyLower "grouping" = "grouping" from by decide,
                show pyCapitalize "grouping" ++ ": " = "Grouping: " from by decide]⟩,
      Or.inr ⟨"Full_query: ", by
        calc adExpenseMonthlyRun "full_query"
            = pyCapitalize (pyLower "full_query") ++ ": " ++
                pyFStr (pyGetItem adExpenseMonthlyInfo (pyLower "full_query")) := rfl
          _ = "Full_query: " ++ pyFStr (pyGetItem adExpenseMonthlyInfo "full_query") := by
              rw [show pyLower "full_query" = "full_query" from by decide,
                show pyCapitalize "full_query" ++ ": " = "Full_query: " from by decide]⟩,
      Or.inr ⟨"Source Table: ", rfl⟩,
      Or.inr ⟨"Time_periods: ", by
        calc adExpenseMonthlyRun "time_periods"
            = pyCapitalize (pyLower "time_periods") ++ ": " ++
                pyFStr (pyGetItem adExpenseMonthlyInfo (pyLower "time_periods")) := rfl
          _ = "Time_periods: " ++ pyFStr (pyGetItem adExpenseMonthlyInfo "time_periods") := by
              rw [show pyLower "time_periods" = "time_periods" from by decide,
                show pyCapitalize "time_periods" ++ ": " = "Time_periods: " from by decide]⟩,
      Or.inl (by decide),
      Or.inl (by decide),
      Or.inr ⟨"Grouping: ", rfl⟩,
      Or.inr ⟨"Full Query: ", rfl⟩,
      Or.inl (by decide),
      Or.inr ⟨"Time Periods: ", rfl⟩,
      Or.inl (by decide),
      Or.inl (by decide),
      Or.inr ⟨"Grouping: ", rfl⟩,
      Or.inr ⟨"Full Query: ", rfl⟩,
      Or.inl (by decide),
      Or.inr ⟨"Time Periods: ", rfl⟩]
  · decide

/-- Witness for C2 at the calls provider and the clustering topic. -/
theorem C2_attr_topics_amended_witness :
    callsProvider.run "clustering" = "No information found for query: clustering" ∨
    ∃ label, callsProvider.run "clustering" =
      label ++ pyFStr (pyGetItem callsProvider.info "clustering") :=
  C2_attr_topics_amended.1 callsProvider (by simp [providers]) "clustering" (by decide)

/-- C3: execute_bigquery never lets an exception of the warehouse call
escape: a raised exception becomes the fixed-prefix error string carrying
the exception's message, and a returned row list becomes the Python str of
its row dicts in warehouse order, one rendering per row. -/
theorem C3_execute_bigquery_boundary :
    ∀ (client : String → PyResult (List Row)) (sqlText : String),
      (∀ e, client sqlText = PyResult.exn e →
        execute_bigquery client sqlText = "An error occurred: " ++ e) ∧
      (∀ rows, client sqlText = PyResult.ok rows →
        execute_bigquery client sqlText = strRowList rows ∧
          (rows.map pyStrOfInfo).length = rows.length) := by
  intro client q
  exact ⟨fun e he => by simp [execute_bigquery, he],
    fun rows hr => ⟨by simp [execute_bigquery, hr], by simp⟩⟩

/-- Witness for C3 at a concrete failing client and a concrete one-row
result. -/
theorem C3_execute_bigquery_boundary_witness :
    execute_bigquery (fun _ => PyResult.exn "boom") "SELECT *" = "An error occurred: boom" ∧
    execute_bigquery (fun _ => PyResult.ok [[("f0_", PyVal.str "1")]]) "SELECT 1" =
      strRowList [[("f0_", PyVal.str "1")]] :=
  ⟨(C3_execute_bigquery_boundary _ "SELECT *").1 "boom" rfl,
   ((C3_execute_bigquery_boundary _ "SELECT 1").2 [[("f0_", PyVal.str "1")]] rfl).1⟩

/-- C4: run_agent never lets an exception of the reasoning engine escape,
for every input string (the quantification covers the empty string and
strings holding backticks): a raised exception becomes the fixed-prefix
error string carrying its message, and a returned answer passes through. -/
theorem C4_run_agent_boundary :
    ∀ (engine : String → PyResult String) (prompt : String),
      (∀ e, engine (agentInstructions prompt) = PyResult.exn e →
        run_agent engine prompt = "An error occurred: " ++ e) ∧
      (∀ r, engine (agentInstructions prompt) = PyResult.ok r →
        run_agent engine prompt = r) := by
  intro engine prompt
  exact ⟨fun e he => by simp [run_agent, he], fun r hr => by simp [run_agent, hr]⟩

/-- Witness for C4 at the empty question and a backtick-laden question. -/
theorem C4_run_agent_boundary_witness :
    run_agent (fun _ => PyResult.exn "engine fault") "" = "An error occurred: engine fault" ∧
    run_agent (fun _ => PyResult.exn "bad syntax") "SELECT `x` FROM `y`" =
      "An error occurred: bad syntax" ∧
    run_agent (fun _ => PyResult.ok "42") "" = "42" :=
  ⟨(C4_run_agent_boundary _ "").1 "engine fault" rfl,
   (C4_run_agent_boundary _ "SELECT `x` FROM `y`").1 "bad syntax" rfl,
   (C4_run_agent_boundary _ "").2 "42" rfl⟩

/-- C5 counterexample: the canonical SQL of the calls provider opens with a
raw newline, while the structure answer — str(table_info), every value
repr-escaped — holds no raw newline anywhere, so no decomposition places
the canonical query inside the structure answer byte-for-byte. -/
theorem C5_structure_not_verbatim :
    '\n' ∈ (pyFStr (pyGetItem callsInfo "full_query")).data ∧
    ¬ ∃ A B, callsRun "structure" =
        A ++ pyFStr (pyGetItem callsInfo "full_query") ++ B := by
  have hfq : '\n' ∈ (pyFStr (pyGetItem callsInfo "full_query")).data :=
    mem_of_head_some (show _ = some '\n' from rfl)
  refine ⟨hfq, ?_⟩
  rintro ⟨A, B, hAB⟩
  have hnl : '\n' ∉ (callsRun "structure").data := by
    rw [show callsRun "structure" = pyStrOfInfo callsInfo from rfl]
    exact pyStrOfInfo_no_newline callsInfo
  rw [hAB, strData_append, strData_append] at hnl
  exact hnl (List.mem_append.mpr (Or.inl (List.mem_append.mpr (Or.inr hfq))))

/-- C5 amended: for every provider, the structure answer contains the
canonical query in its Python-repr form (quotes added and newlines escaped
to backslash-n), not byte-for-byte. -/
theorem C5_structure_contains_repr :
    ∀ p ∈ providers, ∃ A B, p.run "structure" =
      A ++ pyReprStr (pyFStr (pyGetItem p.info "full_query")) ++ B := by
  intro p hp
  fin_cases hp
  · exact structure_decomp callsInfo (pyFStr (pyGetItem callsInfo "full_query")) rfl
      (fun h => absurd (congrArg List.length h) (by decide))
  · exact structure_decomp adExpenseInfo (pyFStr (pyGetItem adExpenseInfo "full_query")) rfl
      (fun h => absurd (congrArg List.length h) (by decide))
  · exact structure_decomp reviewsInfo (pyFStr (pyGetItem reviewsInfo "full_query")) rfl
      (fun h => absurd (congrArg List.length h) (by decide))
  · exact structure_decomp opportunitiesInfo
      (pyFStr (pyGetItem opportunitiesInfo "full_query")) rfl
      (fun h => absurd (congrArg List.length h) (by decide))
  · exact structure_decomp adExpenseMonthlyInfo
      (pyFStr (pyGetItem adExpenseMonthlyInfo "full_query")) rfl
      (fun h => absurd (congrArg List.length h) (by decide))
  · exact structure_decomp opportunitiesMonthlyInfo
      (pyFStr (pyGetItem opportunitiesMonthlyInfo "full_query")) rfl
      (fun h => absurd (congrArg List.length h) (by decide))
  · exact structure_decomp callsMonthlyInfo
      (pyFStr (pyGetItem callsMonthlyInfo "full_query")) rfl
      (fun h => absurd (congrArg List.length h) (by decide))

/-- Witness for C5 at the calls provider. -/
theorem C5_structure_contains_repr_witness :
    ∃ A B, callsProvider.run "structure" =
      A ++ pyReprStr (pyFStr (pyGetItem callsProvider.info "full_query")) ++ B :=
  C5_structure_contains_repr callsProvider (by simp [providers])

/-- C6: for every provider, a topic whose lowercasing lies outside the
provider's comparison vocabulary (the structure keyword, the stored field
keys and the attribute keywords its _run dispatches on) is answered with
the No-information diagnostic naming the lowercased topic; _run is total,
so no exception can arise. -/
theorem C6_unknown_topic_diagnostic :
    ∀ p ∈ providers, ∀ topic : String, pyLower topic ∉ p.vocab →
      p.run topic = "No information found for query: " ++ pyLower topic := by
  intro p hp
  fin_cases hp
  · exact fun t ht => callsRunQ_unknown (pyLower t) ht
  · exact fun t ht => adExpenseRunQ_unknown (pyLower t) ht
  · exact fun t ht => reviewsRunQ_unknown (pyLower t) ht
  · exact fun t ht => opportunitiesRunQ_unknown (pyLower t) ht
  · exact fun t ht => adExpenseMonthlyRunQ_unknown (pyLower t) ht
  · exact fun t ht => opportunitiesMonthlyRunQ_unknown (pyLower t) ht
  · exact fun t ht => callsMonthlyRunQ_unknown (pyLower t) ht

/-- Witness for C6 at the calls provider and an unrecognized topic. -/
theorem C6_unknown_topic_diagnostic_witness :
    callsProvider.run "Banana Smoothie" =
      "No information found for query: " ++ pyLower "Banana Smoothie" :=
  C6_unknown_topic_diagnostic callsProvider (by simp [providers]) "Banana Smoothie" (by decide)

/-- C7: the catalog's table identifiers are duplicate-free and listed in
the fixed construction order, and describing any listed identifier finds
its entry, whose field list is non-empty, and renders the found form. -/
theorem C7_catalog_list_describe :
    (schema_map.map Prod.fst).Nodup ∧
    schemaRun "list tables" =
      "the_pulse.reviews_forLS\nthe_pulse.opportunities_monthly_forLS\nthe_pulse.calls_monthly_forLS\nthe_pulse.calls_forLS\nthe_pulse.ad_expense_data_monthly_forLS\nthe_pulse.ad_expense_data_forLS\nthe_pulse.opportunities_forLS" ∧
    ∀ t ∈ schema_map.map Prod.fst, ∃ e : String × SchemaEntry,
      schema_map.find? (fun p => p.1 == t) = some e ∧ e.2.fields ≠ [] ∧
      schemaRun ("describe " ++ t) =
        "Table: " ++ t ++ "\nDescription: " ++ e.2.description ++
          "\nFields: " ++ joinSep ", " e.2.fields := by
  refine ⟨by decide, by decide, ?_⟩
  intro t ht
  fin_cases ht <;> exact ⟨_, rfl, by decide, by decide⟩

/-- Witness for C7 at the calls table identifier. -/
theorem C7_catalog_list_describe_witness :
    ∃ e : String × SchemaEntry,
      schema_map.find? (fun p => p.1 == "the_pulse.calls_forLS") = some e ∧
      e.2.fields ≠ [] ∧
      schemaRun ("describe " ++ "the_pulse.calls_forLS") =
        "Table: " ++ "the_pulse.calls_forLS" ++ "\nDescription: " ++ e.2.description ++
          "\nFields: " ++ joinSep ", " e.2.fields :=
  C7_catalog_list_describe.2.2 "the_pulse.calls_forLS" (by decide)

/-- C8: setup_agent fixes sampling temperature 0, iteration ceiling 5, and
exactly the nine enumerated tool bindings — the query executor, the schema
catalog, and one tool per table contract provider. -/
theorem C8_setup_agent_configuration :
    ∀ client : String → PyResult (List Row),
      (setup_agent client).temperature = 0 ∧
      (setup_agent client).maxIterations = 5 ∧
      (setup_agent client).tools.map Prod.fst =
        ["BigQuery", "Data Schema Roadmap", "Calls_ForLS", "Opportunities_ForLS",
          "Ad_Expense_Data_ForLS", "Reviews_ForLS", "Ad_Expense_Data_Monthly_ForLS",
          "Opportunities_Monthly_ForLS", "Calls_Monthly_ForLS"] ∧
      (setup_agent client).tools.length = 9 :=
  fun _ => ⟨rfl, rfl, rfl, rfl⟩

/-- C9: the describe operation is deterministic and leaves the catalog
unchanged: running _run twice in sequence with the same input, threading
the tool state, returns the original state and identical outputs. -/
theorem C9_describe_idempotent_pure :
    ∀ query : String,
      (schemaRunSt schema_map query).2 = schema_map ∧
      (schemaRunSt (schemaRunSt schema_map query).2 query).1 =
        (schemaRunSt schema_map query).1 :=
  fun _ => ⟨rfl, rfl⟩

/-- C10: when the input is a word lowercasing to describe, a space, and a
table name, _run matches the keyword case-insensitively and looks the name
up exactly as written; an unlisted name (for example one differing only in
case from a stored key) yields the not-found string, while DESCRIBE with
the stored casing of a name succeeds (the answer starts with the found
form's Table-colon prefix, not the not-found form's). -/
theorem C10_keyword_case_insensitive_name_sensitive :
    (∀ w t : String, pyLower w = "describe" →
      schemaRun (w ++ " " ++ t) = describeLookup schema_map t) ∧
    (∀ w t : String, pyLower w = "describe" → t ∉ schema_map.map Prod.fst →
      schemaRun (w ++ " " ++ t) = "Table " ++ t ++ " not found in the schema map.") ∧
    startsWithL (schemaRun "DESCRIBE the_pulse.reviews_forLS").data "Table: ".data = true ∧
    schemaRun "describe the_pulse.reviews_forls" =
      "Table the_pulse.reviews_forls not found in the schema map." := by
  have main : ∀ w t : String, pyLower w = "describe" →
      schemaRun (w ++ " " ++ t) = describeLookup schema_map t := by
    intro w t hw
    have hnosp : ' ' ∉ w.data := no_space_of_lower_describe w hw
    have hdata : (w ++ " " ++ t).data = w.data ++ (' ' :: t.data) := by
      rw [strData_append, strData_append, List.append_assoc]
      rfl
    have hlowkey : pyLower (w ++ " " ++ t) = "describe " ++ pyLower t := by
      calc pyLower (w ++ " " ++ t) = pyLower w ++ pyLower " " ++ pyLower t := by
            rw [pyLower_append, pyLower_append]
        _ = "describe " ++ pyLower t := by
            rw [hw, show ("describe" : String) ++ pyLower " " = "describe " from by decide]
    have hne : ¬ pyLower (w ++ " " ++ t) = "list tables" := by
      rw [hlowkey]
      intro he
      have hd := congrArg String.data he
      rw [strData_append,
        show ("describe " : String).data = 'd' :: "escribe ".data from by decide,
        show ("list tables" : String).data = 'l' :: "ist tables".data from by decide,
        List.cons_append] at hd
      injection hd with hd1 _
      exact absurd hd1 (by decide)
    have hsw : startsWithL (pyLower (w ++ " " ++ t)).data "describe ".data = true := by
      rw [hlowkey, strData_append]
      exact startsWithL_append _ _
    unfold schemaRun schemaRunWith
    rw [if_neg hne, if_pos hsw, hdata, afterFirstSpace_append w.data t.data hnosp]
  refine ⟨main, fun w t hw hnot => ?_, by decide, by decide⟩
  rw [main w t hw]
  unfold describeLookup
  rw [find_none_of_key_not_mem t schema_map hnot]

/-- Witness for C10 at an uppercased keyword with a stored name and with a
case-mangled name. -/
theorem C10_keyword_case_insensitive_name_sensitive_witness :
    schemaRun ("DESCRIBE" ++ " " ++ "the_pulse.calls_forLS") =
      describeLookup schema_map "the_pulse.calls_forLS" ∧
    schemaRun ("DeScRiBe" ++ " " ++ "the_pulse.Calls_ForLS") =
      "Table " ++ "the_pulse.Calls_ForLS" ++ " not found in the schema map." :=
  ⟨C10_keyword_case_insensitive_name_sensitive.1 "DESCRIBE" "the_pulse.calls_forLS"
      (by decide),
   C10_keyword_case_insensitive_name_sensitive.2.1 "DeScRiBe" "the_pulse.Calls_ForLS"
      (by decide) (by decide)⟩
